import Mathlib

/-!
# Verification of the lc96p conversion core (`run.py`, `app.py`)

A shallow embedding, in Lean 4, of the qPCR LC96P conversion program:

* `run.py` — `reshape_result`, `extract_run`, `export_amp`, `export_melt`,
  `export_cq`;
* `app.py` — the uploaded-file handler with its session-state cache.

Python/pandas semantics are modelled as follows.

* A value that may be `NaN`/null is `Option ℚ` (`none` = `NaN`); floating
  point numbers are modelled as rationals, which is exact for the decimal
  literals and the structural properties studied here.
* A Python function either returns (`PyResult.ok`), raises a catchable
  exception (`PyResult.raise`), or terminates the process through
  `sys.exit(code)` (`PyResult.exit`).  `SystemExit` is not a subclass of
  `Exception`, so an `except Exception` handler catches `.raise` but not
  `.exit`.
* `pandas.Series.str.extract(pat)` keeps the captures of the *first*
  `re.search` match of `pat` in each string; `.astype(int)` over a column
  raises `ValueError` when some entry is `NaN` or non-numeric;
  `DataFrame.pivot` raises `ValueError` when the (index, column) pairs
  contain duplicates, and sorts the resulting index and columns.
-/

/-- The exception kinds the embedded code can raise.  `castError` and
`duplicateIndexError` are both Python `ValueError`s (from `.astype(int)` on a
`NaN`/non-numeric column and from `DataFrame.pivot` on duplicate index
entries respectively); `keyError` is a pandas `KeyError` from column
selection. -/
inductive PyErrorKind where
  | keyError
  | castError
  | duplicateIndexError
deriving DecidableEq

/-- Outcome of running a piece of Python code: normal return, a raised
(catchable) exception, or process termination via `sys.exit code`. -/
inductive PyResult (α : Type) where
  | ok (a : α)
  | raise (e : PyErrorKind)
  | exit (code : Nat)
deriving DecidableEq

/-- Sequencing of embedded Python steps: an exception or exit propagates. -/
def PyResult.bind {α β : Type} : PyResult α → (α → PyResult β) → PyResult β
  | .ok a, f => f a
  | .raise e, _ => .raise e
  | .exit c, _ => .exit c

/-- Run an embedded step on every list element, stopping at the first
exception or exit (the semantics of a pandas column-wide operation whose
first failing row aborts the whole statement). -/
def mapPR {α β : Type} (f : α → PyResult β) : List α → PyResult (List β)
  | [] => .ok []
  | a :: l => (f a).bind fun b => (mapPR f l).bind fun bs => .ok (b :: bs)

/-- The exact results column name selected by `reshape_result`. -/
def cqColName : String := "Cq (mean eff) - no plateau - stat efficiency"

/-- One row of the LinRegPCR results table (`resultsCSV` parsed by
`pd.read_csv`): the `well` column plus the remaining named numeric columns,
each possibly `NaN`. -/
structure ResultRow where
  well : String
  cells : List (String × Option ℚ)
deriving DecidableEq

/-- The LinRegPCR results table: an ordered list of rows. -/
structure ResultTable where
  rows : List ResultRow
deriving DecidableEq

/-- First match of the regex `([A-Z])(\d+)` in a string, as found by
`pandas.Series.str.extract` (i.e. `re.search`: the leftmost position where
one ASCII uppercase letter is immediately followed by at least one ASCII
digit; `\d+` is greedy, so the digit capture is the maximal digit run).
Returns `none` when the pattern does not occur (pandas fills `NaN`). -/
def findWellMatch : List Char → Option (Char × List Char)
  | [] => none
  | c :: rest =>
    match rest with
    | [] => none
    | d :: _ =>
      if c.isUpper && d.isDigit then some (c, rest.takeWhile (·.isDigit))
      else findWellMatch rest

/-- Value of a digit string read as a decimal integer (`astype(int)` on the
captured `\d+` group, which always succeeds since the capture is all
digits). -/
def digitsToNat (l : List Char) : Nat :=
  l.foldl (fun n c => 10 * n + (c.toNat - 48)) 0

/-- A pivoted row of the results table ready for the plate pivot:
(row letter as captured, column number, Cq cell). -/
abbrev PivotEntry := String × Nat × Option ℚ

/-- The plate position (row key, column key) of a pivot entry. -/
def entryKey (e : PivotEntry) : String × Nat := (e.1, e.2.1)

/-- The pivoted plate grid, as `DataFrame.pivot` lays it out: sorted distinct
row keys (the captured letters), sorted distinct column keys (the parsed
digits), and the full rectangular cell matrix (`cells` has one inner list per
row key, one entry per column key; a plate position no entry maps to is
`NaN`, i.e. `none`). -/
structure Plate where
  rowKeys : List String
  colKeys : List Nat
  cells : List (List (Option ℚ))
deriving DecidableEq

/-- Insert into a `≤`-sorted list, keeping it sorted (used to model pandas
sorting the pivot index and columns). -/
def insertSorted {α : Type} (le : α → α → Bool) (a : α) : List α → List α
  | [] => [a]
  | b :: l => if le a b then a :: b :: l else b :: insertSorted le a l

/-- Insertion sort by a boolean `≤`. -/
def sortByLe {α : Type} (le : α → α → Bool) : List α → List α
  | [] => []
  | a :: l => insertSorted le a (sortByLe le l)

/-- Remove adjacent duplicates (applied after sorting: yields the sorted set
of keys). -/
def dedupAdj {α : Type} [DecidableEq α] : List α → List α
  | [] => []
  | [a] => [a]
  | a :: b :: l => if a = b then dedupAdj (b :: l) else a :: dedupAdj (b :: l)

/-- Byte-wise `≤` on strings (sufficient for the single-letter row keys the
pivot produces). -/
def strLe (s t : String) : Bool :=
  let rec go : List Char → List Char → Bool
    | [], _ => true
    | _ :: _, [] => false
    | a :: l, b :: m => if a = b then go l m else decide (a < b)
  go s.toList t.toList

/-- Sorted distinct row keys of a pivot entry list. -/
def pivotRowKeys (es : List PivotEntry) : List String :=
  dedupAdj (sortByLe strLe (es.map (·.1)))

/-- Sorted distinct column keys of a pivot entry list. -/
def pivotColKeys (es : List PivotEntry) : List Nat :=
  dedupAdj (sortByLe (fun a b => decide (a ≤ b)) (es.map (fun e => e.2.1)))

/-- Cell of the pivoted grid at a plate position: the Cq value of the entry
mapped there, `NaN` (`none`) when no entry is. -/
def pivotCell (es : List PivotEntry) (l : String) (d : Nat) : Option ℚ :=
  match es.find? (fun e => e.1 = l && e.2.1 = d) with
  | some e => e.2.2
  | none => none

/-- The grid `DataFrame.pivot` builds once its keys are known to be free of
duplicates. -/
def buildPlate (es : List PivotEntry) : Plate :=
  { rowKeys := pivotRowKeys es
    colKeys := pivotColKeys es
    cells := (pivotRowKeys es).map fun l => (pivotColKeys es).map fun d => pivotCell es l d }

/-- Stage 1 of `reshape_result`:
`result_table.loc[:, ["well", "Cq (mean eff) - no plateau - stat efficiency"]]`
— keep the well id and the Cq column of every row; a row without that column
is a pandas `KeyError`. -/
def selectCols (t : ResultTable) : PyResult (List (String × Option ℚ)) :=
  mapPR
    (fun r =>
      match r.cells.lookup cqColName with
      | some v => .ok (r.well, v)
      | none => .raise .keyError)
    t.rows

/-- Stage 2 of `reshape_result`:
`.join(df["well"].str.extract(r"(?P<letter>[A-Z])(?P<digit>\d+)")).assign(digit=lambda x: x.digit.astype(int))`
— extract the (letter, digits) captures from each well id and cast the digit
column to `int`; a well id with no match leaves `NaN` in the column and the
cast raises `ValueError`. -/
def extractRow (r : String × Option ℚ) : PyResult PivotEntry :=
  match findWellMatch r.1.toList with
  | some (c, ds) => .ok (c.toString, digitsToNat ds, r.2)
  | none => .raise .castError

/-- Stage 2 applied to the whole column. -/
def extractAll (rs : List (String × Option ℚ)) : PyResult (List PivotEntry) :=
  mapPR extractRow rs

/-- Stage 3 of `reshape_result`: `.pivot(index="letter", columns="digit",
values=...)` — raises `ValueError` when two rows map to the same
(letter, digit) pair, otherwise lays out the grid. -/
def pivotPlate (es : List PivotEntry) : PyResult Plate :=
  if (es.map entryKey).Nodup then .ok (buildPlate es) else .raise .duplicateIndexError

/-- `reshape_result` (src/run.py lines 24-45): select the well and Cq
columns, extract and int-cast the plate coordinates, pivot into the plate
grid, and `sys.exit(1)` when the resulting grid is empty. -/
def reshape_result (t : ResultTable) : PyResult Plate :=
  (selectCols t).bind fun rs =>
  (extractAll rs).bind fun es =>
  (pivotPlate es).bind fun p =>
  if p.rowKeys.isEmpty then .exit 1 else .ok p

/-- The keyword arguments `run.py` passes to `run.linRegPCR(...)` in
`export_cq` (src/run.py lines 101-115). -/
structure LinRegConfig where
  pcrEfficiencyExl : ℚ
  updateRDML : Bool
  excludeNoPlateau : Bool
  excludeEfficiency : String
  excludeInstableBaseline : Bool
  commaConv : Bool
  ignoreExclusion : Bool
  saveRaw : Bool
  saveBaslineCorr : Bool
  saveResultsList : Bool
  saveResultsCSV : Bool
  timeRun : Bool
  verbose : Bool
deriving DecidableEq

/-- What `run.linRegPCR` hands back, at the granularity `export_cq` reads it:
the optional `noRawData` message (only logged) and the `resultsCSV` table
(modelled already parsed by `pd.read_csv`, the parse of the tab-separated
text being boundary glue). -/
structure LinRegOutput where
  noRawData : Option String
  resultsCSV : ResultTable

/-- An exported fluorescence table, as `pd.read_csv(run.export_table(mode),
sep="\t")` delivers it after `.set_index("Well")`: the data column names
(cycle numbers or temperatures, still strings) and one row per well, the
values aligned with `cols`.  The serialisation to tab-separated text and back
is boundary glue of the vendored `rdmlpython` library and is modelled away. -/
structure RawExport where
  cols : List String
  rows : List (String × List (Option ℚ))
deriving DecidableEq

/-- A run object of the `rdmlpython` library, at the granularity `run.py`
uses it: an id, the two exportable fluorescence tables, and the LinRegPCR
entry point (an opaque external computation, modelled as a function of the
configuration it is called with). -/
structure Run where
  id : String
  ampExport : RawExport
  meltExport : RawExport
  linRegPCR : LinRegConfig → LinRegOutput

/-- An experiment of the parsed RDML document: its id and its ordered runs. -/
structure Experiment where
  id : String
  runs : List Run

/-- The parsed RDML document (`Rdml(input_file)`): schema version and ordered
experiments. -/
structure RdmlFile where
  version : String
  experiments : List Experiment

/-- Modelled from the spec: `migrate_version_1_0_to_1_1` lives in the
vendored `rdmlpython` library outside `src/`; per the spec (§1: RDML schema
version migration is a non-goal handled at the boundary) it upgrades the
document's schema version in place and preserves the experiments and their
runs. -/
def migrate_version_1_0_to_1_1 (f : RdmlFile) : RdmlFile :=
  { f with version := "1.1" }

/-- `extract_run` (src/run.py lines 48-72): migrate a version-1.0 document,
then `sys.exit(0)` when there is no experiment, else take `experiments[0]`;
`sys.exit(0)` when it has no run, else return `runs[0]`. -/
def extract_run (f : RdmlFile) : PyResult Run :=
  let g := if f.version = "1.0" then migrate_version_1_0_to_1_1 f else f
  match g.experiments with
  | [] => .exit 0
  | e :: _ =>
    match e.runs with
    | [] => .exit 0
    | r :: _ => .ok r

/-- Apply a fallible per-entry conversion to a whole column (`Index.astype`):
`none` as soon as one entry fails. -/
def mapOpt {α β : Type} (f : α → Option β) : List α → Option (List β)
  | [] => some []
  | a :: l =>
    match f a with
    | some b => (mapOpt f l).map (fun bs => b :: bs)
    | none => none

/-- `int(s)` on a column name: optional sign followed by decimal digits
(`Index.astype(int)`); `none` models the `ValueError` on a non-numeric
name. -/
def parseIntStr (s : String) : Option ℤ :=
  match s.toList with
  | '-' :: l => if !l.isEmpty && l.all (·.isDigit) then some (-(digitsToNat l : ℤ)) else none
  | l => if !l.isEmpty && l.all (·.isDigit) then some (digitsToNat l : ℤ) else none

/-- `float(s)` on a column name (`Index.astype(float)`), for the decimal
forms the melt export produces: optional sign, integer part, optional
fractional part.  Modelled exactly in `ℚ`. -/
def parseDecStr (s : String) : Option ℚ :=
  let core : List Char → Option ℚ := fun l =>
    let ip := l.takeWhile (·.isDigit)
    match l.dropWhile (·.isDigit) with
    | [] => if ip.isEmpty then none else some (digitsToNat ip : ℚ)
    | '.' :: fp =>
      if (!ip.isEmpty || !fp.isEmpty) && fp.all (·.isDigit) then
        some ((digitsToNat ip : ℚ) + (digitsToNat fp : ℚ) / ((10 : ℚ) ^ fp.length))
      else none
    | _ => none
  match s.toList with
  | '-' :: l => (core l).map (fun q => -q)
  | l => core l

/-- The amplification table `export_amp` returns: row index = cycle numbers
cast to `int`, columns = well ids, `data` row-major over the index. -/
structure AmpTable where
  index : List ℤ
  wells : List String
  data : List (List (Option ℚ))
deriving DecidableEq

/-- The melt table `export_melt` returns: row index = temperatures cast to
`float`, columns = well ids. -/
structure MeltTable where
  index : List ℚ
  wells : List String
  data : List (List (Option ℚ))
deriving DecidableEq

/-- `.iloc[:, 6:]` followed by `.T`: drop the first six metadata columns,
then transpose, so entry `(i, j)` of the result is the value of well `j` at
the `i`-th surviving column. -/
def transposeDropped (t : RawExport) : List (List (Option ℚ)) :=
  (List.range (t.cols.drop 6).length).map fun i =>
    t.rows.map fun r => (r.2.drop 6).getD i none

/-- `export_amp` (src/run.py lines 75-85): parse the export, set `Well` as
index, drop the first six columns, transpose, and cast the index to `int`. -/
def export_amp (run : Run) : PyResult AmpTable :=
  match mapOpt parseIntStr (run.ampExport.cols.drop 6) with
  | some idx => .ok ⟨idx, run.ampExport.rows.map (·.1), transposeDropped run.ampExport⟩
  | none => .raise .castError

/-- `export_melt` (src/run.py lines 88-96): same as `export_amp` with the
melt export and a `float` index cast. -/
def export_melt (run : Run) : PyResult MeltTable :=
  match mapOpt parseDecStr (run.meltExport.cols.drop 6) with
  | some idx => .ok ⟨idx, run.meltExport.rows.map (·.1), transposeDropped run.meltExport⟩
  | none => .raise .castError

/-- The exact configuration `export_cq` invokes `run.linRegPCR` with
(src/run.py lines 101-115): `pcrEfficiencyExl=0.05, updateRDML=False,
excludeNoPlateau=True, excludeEfficiency="mean",
excludeInstableBaseline=True, commaConv=False, ignoreExclusion=False,
saveRaw=False, saveBaslineCorr=False, saveResultsList=False,
saveResultsCSV=True, timeRun=True, verbose=False`. -/
def exportCqConfig : LinRegConfig :=
  { pcrEfficiencyExl := 1/20
    updateRDML := false
    excludeNoPlateau := true
    excludeEfficiency := "mean"
    excludeInstableBaseline := true
    commaConv := false
    ignoreExclusion := false
    saveRaw := false
    saveBaslineCorr := false
    saveResultsList := false
    saveResultsCSV := true
    timeRun := true
    verbose := false }

/-- `export_cq` (src/run.py lines 99-123): run LinRegPCR with
`exportCqConfig`, log (and otherwise ignore) any `noRawData` message, and
reshape the results table into the plate grid. -/
def export_cq (run : Run) : PyResult Plate :=
  reshape_result (run.linRegPCR exportCqConfig).resultsCSV

/-- The Streamlit session state the uploaded-file handler reads and writes
(`st.session_state`): the content-hash key of the last successfully parsed
upload and the three cached tables. -/
structure SessionState where
  file_key : Option String
  amp_table : Option AmpTable
  melt_table : Option MeltTable
  result_table : Option Plate
deriving DecidableEq

/-- What one pass of the handler shows the user: freshly computed tables, the
cached tables, an error message followed by `st.stop()`, or a propagated
process exit (`SystemExit` is not caught by `except Exception`). -/
inductive HandlerOutcome where
  | computed (amp : AmpTable) (melt : MeltTable) (cq : Plate)
  | cached (amp : Option AmpTable) (melt : Option MeltTable) (cq : Option Plate)
  | errorStop
  | procExit (code : Nat)
deriving DecidableEq

/-- The compute path of the handler (src/app.py lines 136-151): parse the
written-out bytes, extract the run, export the three tables in order. -/
def processUpload (parse : List Nat → RdmlFile) (b : List Nat) :
    PyResult (AmpTable × MeltTable × Plate) :=
  (extract_run (parse b)).bind fun run =>
  (export_amp run).bind fun a =>
  (export_melt run).bind fun m =>
  (export_cq run).bind fun p => .ok (a, m, p)

/-- The uploaded-file handler (src/app.py lines 113-169): key the upload by
its content hash; when the key differs from the session's, recompute (on
success caching key and tables, on an exception showing an error and leaving
the session unchanged), and when it matches, show the cached tables without
recomputing.  The hash function (`hashlib.md5`) and the container parser are
abstracted as parameters. -/
def uploaded_file_handler (h : List Nat → String) (parse : List Nat → RdmlFile)
    (s : SessionState) (b : List Nat) : SessionState × HandlerOutcome :=
  let key := h b
  if s.file_key = some key then
    (s, .cached s.amp_table s.melt_table s.result_table)
  else
    match processUpload parse b with
    | .ok (a, m, p) => (⟨some key, some a, some m, some p⟩, .computed a m p)
    | .raise _ => (s, .errorStop)
    | .exit c => (s, .procExit c)

/-- Modelled from the spec: the well-id pattern `<letters><digits>` of §4.6 —
one or more letters followed by one or more digits and nothing else (the
spec's examples make a lowercase id non-conforming, so letters are
uppercase). -/
def specConformsWellId (s : String) : Bool :=
  let l := s.toList
  let letters := l.takeWhile (·.isUpper)
  let ds := l.dropWhile (·.isUpper)
  !letters.isEmpty && !ds.isEmpty && ds.all (·.isDigit)

/-- A concrete one-well run used to instantiate the theorems with
hypotheses: one amplification export with six metadata columns and cycles
1-2, one melt export with six metadata columns and temperature 60, and a
LinRegPCR stub answering a one-row results table for well A1. -/
def demoRun : Run :=
  { id := "r1"
    ampExport :=
      { cols := ["m1", "m2", "m3", "m4", "m5", "m6", "1", "2"]
        rows := [("A1", [none, none, none, none, none, none, some 1, some 2])] }
    meltExport :=
      { cols := ["m1", "m2", "m3", "m4", "m5", "m6", "60"]
        rows := [("A1", [none, none, none, none, none, none, some 3])] }
    linRegPCR := fun _ =>
      { noRawData := none
        resultsCSV := { rows := [⟨"A1", [(cqColName, some 20)]⟩] } } }

/-- A concrete parsed document holding `demoRun`. -/
def demoFile : RdmlFile :=
  { version := "1.1", experiments := [{ id := "e1", runs := [demoRun] }] }

/-- The amplification table `export_amp demoRun` produces. -/
def demoAmpTable : AmpTable := ⟨[1, 2], ["A1"], [[some 1], [some 2]]⟩

/-- The melt table `export_melt demoRun` produces. -/
def demoMeltTable : MeltTable := ⟨[60], ["A1"], [[some 3]]⟩

/-- The plate grid `export_cq demoRun` produces. -/
def demoPlate : Plate := ⟨["A"], [1], [[some 20]]⟩

/-- The session state after a successful pass of the handler over `demoFile`
hashed to `"k0"`. -/
def demoState : SessionState :=
  ⟨some "k0", some demoAmpTable, some demoMeltTable, some demoPlate⟩

/-! ## Supporting lemmas -/

/-- `mapPR` over a mapped list is `mapPR` of the composition. -/
theorem mapPR_map {α β γ : Type} (g : α → β) (f : β → PyResult γ) (l : List α) :
    mapPR f (l.map g) = mapPR (fun a => f (g a)) l := by
  induction l with
  | nil => rfl
  | cons a l ih => simp [mapPR, ih]

/-- If some element of the list makes the step raise `e`, and no element
makes it exit or raise a different exception, the whole `mapPR` raises `e`. -/
theorem mapPR_raise_of_mem {α β : Type} (f : α → PyResult β) (l : List α)
    (e : PyErrorKind)
    (hsh : ∀ a ∈ l, (∃ b, f a = .ok b) ∨ f a = .raise e)
    (hex : ∃ a ∈ l, f a = .raise e) :
    mapPR f l = .raise e := by
  induction l with
  | nil => simp at hex
  | cons a l ih =>
    rcases hsh a (List.mem_cons_self a l) with ⟨b, hb⟩ | hb
    · rcases hex with ⟨x, hx, hfx⟩
      rcases List.mem_cons.mp hx with rfl | hx
      · rw [hfx] at hb; cases hb
      · have : mapPR f l = .raise e :=
          ih (fun y hy => hsh y (List.mem_cons_of_mem a hy)) ⟨x, hx, hfx⟩
        simp [mapPR, hb, PyResult.bind, this]
    · simp [mapPR, hb, PyResult.bind]

/-- `extractRow` either succeeds or raises the int-cast `ValueError`; it
raises exactly when the well id has no `[A-Z]\d+` match. -/
theorem extractRow_raise_iff (r : String × Option ℚ) :
    extractRow r = .raise .castError ↔ findWellMatch r.1.toList = none := by
  unfold extractRow
  cases findWellMatch r.1.toList <;> simp

/-- An uppercase ASCII letter is not an ASCII digit. -/
theorem isDigit_eq_false_of_isUpper {c : Char} (h : c.isUpper = true) :
    c.isDigit = false := by
  simp only [Char.isUpper, Bool.and_eq_true, decide_eq_true_eq] at h
  simp only [Char.isDigit, Bool.and_eq_false_iff, decide_eq_false_iff_not]
  right
  intro hle
  have h2 : c.val.toBitVec.toNat ≤ 57 := hle
  have h3 : 65 ≤ c.val.toBitVec.toNat := h.1
  omega

/-- On a string of uppercase letters followed by digits, the first
`[A-Z]\d+` match starts at the letter adjacent to the digits: it captures
the last letter and the whole digit run. -/
theorem findWellMatch_letters_digits (L D : List Char) (hL : L ≠ [])
    (hLU : ∀ c ∈ L, c.isUpper = true) (hD : D ≠ [])
    (hDD : ∀ c ∈ D, c.isDigit = true) :
    findWellMatch (L ++ D) = some (L.getLast hL, D) := by
  induction L with
  | nil => exact absurd rfl hL
  | cons c L ih =>
    cases L with
    | nil =>
      cases D with
      | nil => exact absurd rfl hD
      | cons d D =>
        have hc : c.isUpper = true := hLU c (List.mem_cons_self c [])
        have hd : d.isDigit = true := hDD d (List.mem_cons_self d D)
        have hall : (d :: D).takeWhile (·.isDigit) = d :: D :=
          List.takeWhile_eq_self_iff.mpr (by simpa using hDD)
        simp [findWellMatch, hc, hd, hall]
    | cons c' L' =>
      have hc : c.isUpper = true := hLU c (List.mem_cons_self c _)
      have hc' : c'.isUpper = true := hLU c' (by simp)
      have hnd : c'.isDigit = false := isDigit_eq_false_of_isUpper hc'
      have step : findWellMatch (c :: c' :: L' ++ D) = findWellMatch (c' :: L' ++ D) := by
        simp [findWellMatch, hnd]
      show findWellMatch (c :: c' :: L' ++ D) = some ((c :: c' :: L').getLast hL, D)
      rw [step, ih (by simp) (fun x hx => hLU x (List.mem_cons_of_mem c hx))]
      congr 1

/-! ## Claim theorems -/

/-- C1: feeding `reshape_result` a result table whose well ids are
{A1, A2, B1, B2} with Cq values {A1:20.1, A2:21.3, B1:19.8, B2:null} yields
the plate grid {A: {1:20.1, 2:21.3}, B: {1:19.8, 2:null}}: rows keyed by the
letter, columns by the number parsed as an integer, and the absent Cq of B2
preserved as null. -/
theorem c1_reshape_round_trip :
    reshape_result
      { rows :=
          [⟨"A1", [(cqColName, some (201/10))]⟩,
           ⟨"A2", [(cqColName, some (213/10))]⟩,
           ⟨"B1", [(cqColName, some (198/10))]⟩,
           ⟨"B2", [(cqColName, none)]⟩] } =
    .ok
      { rowKeys := ["A", "B"]
        colKeys := [1, 2]
        cells := [[some (201/10), some (213/10)], [some (198/10), none]] } := by
  rfl

/-- C2 counterexample: run-level failures are not returned as structured
failures — `extract_run` on a document with no experiments terminates the
process with `sys.exit(0)`, and `reshape_result` on an empty result table
terminates it with `sys.exit(1)`. -/
theorem c2_counterexample :
    extract_run { version := "1.1", experiments := [] } = .exit 0 ∧
    reshape_result { rows := [] } = .exit 1 :=
  ⟨rfl, rfl⟩

/-- C2 (amended): each run-level failure terminates the process rather than
returning a structured failure to the caller: no experiments → `sys.exit(0)`,
no runs in the first experiment → `sys.exit(0)`, empty result grid →
`sys.exit(1)`; the first two even exit with success status 0. -/
theorem c2_run_level_failures_terminate (f : RdmlFile) (t : ResultTable) :
    (f.experiments = [] → extract_run f = .exit 0) ∧
    (∀ e es, f.experiments = e :: es → e.runs = [] → extract_run f = .exit 0) ∧
    (t.rows = [] → reshape_result t = .exit 1) := by
  refine ⟨?_, ?_, ?_⟩
  · intro h
    by_cases hv : f.version = "1.0" <;>
      simp [extract_run, migrate_version_1_0_to_1_1, hv, h]
  · intro e es h1 h2
    by_cases hv : f.version = "1.0" <;>
      simp [extract_run, migrate_version_1_0_to_1_1, hv, h1, h2]
  · intro h
    have ht : t = { rows := [] } := by cases t; simp_all
    rw [ht]
    rfl

/-- C2 witness: the amended statement at concrete inputs (a version-1.0
document with no experiments, a document whose first experiment has no runs,
and an empty result table). -/
theorem c2_run_level_failures_terminate_witness :
    extract_run { version := "1.0", experiments := [] } = .exit 0 ∧
    extract_run { version := "1.1", experiments := [⟨"e1", []⟩] } = .exit 0 ∧
    reshape_result { rows := [] } = .exit 1 :=
  ⟨(c2_run_level_failures_terminate { version := "1.0", experiments := [] }
      { rows := [] }).1 rfl,
   (c2_run_level_failures_terminate { version := "1.1", experiments := [⟨"e1", []⟩] }
      { rows := [] }).2.1 ⟨"e1", []⟩ [] rfl rfl,
   (c2_run_level_failures_terminate { version := "1.1", experiments := [] }
      { rows := [] }).2.2 rfl⟩

/-- C3 counterexample: the well id "A1x" does not conform to the pattern
`<letters><digits>`, yet `reshape_result` surfaces no error: the embedded
fragment "A1" matches `[A-Z]\d+` and the well is silently pivoted to row A,
column 1. -/
theorem c3_counterexample :
    specConformsWellId "A1x" = false ∧
    reshape_result { rows := [⟨"A1x", [(cqColName, some 7)]⟩] } =
      .ok { rowKeys := ["A"], colKeys := [1], cells := [[some 7]] } :=
  ⟨rfl, rfl⟩

/-- C3 (amended): a result table containing a well id in which no uppercase
ASCII letter is immediately followed by a digit (for example a lowercase id
or an id with no digits) makes assembly raise the int-cast `ValueError` —
but ids that merely embed a `[A-Z]\d+` fragment (such as "A1x") are
absorbed silently at the fragment's position, not reported. -/
theorem c3_unmatched_id_raises (t : ResultTable) (rs : List (String × Option ℚ))
    (hsel : selectCols t = .ok rs)
    (hbad : ∃ r ∈ rs, findWellMatch r.1.toList = none) :
    reshape_result t = .raise .castError := by
  have hext : extractAll rs = .raise .castError := by
    apply mapPR_raise_of_mem
    · intro a _
      unfold extractRow
      cases findWellMatch a.1.toList with
      | none => exact Or.inr rfl
      | some p => exact Or.inl ⟨(p.1.toString, digitsToNat p.2, a.2), rfl⟩
    · rcases hbad with ⟨r, hr, hfr⟩
      exact ⟨r, hr, (extractRow_raise_iff r).mpr hfr⟩
  simp [reshape_result, hsel, PyResult.bind, extractAll] at hext ⊢
  simp [hext, PyResult.bind]

/-- C3 witness: the amended statement at the lowercase well id "b2". -/
theorem c3_unmatched_id_raises_witness :
    reshape_result { rows := [⟨"b2", [(cqColName, some 3)]⟩] } = .raise .castError :=
  c3_unmatched_id_raises { rows := [⟨"b2", [(cqColName, some 3)]⟩] }
    [("b2", some 3)] rfl ⟨("b2", some 3), by simp, rfl⟩

/-- C4: when two distinct rows of the result table map to the same
(row letter, column number) plate position, the pivot reports the duplicate
position as an error (`DataFrame.pivot` raises `ValueError` on duplicate
index entries) instead of producing a grid. -/
theorem c4_duplicate_position_raises (t : ResultTable)
    (rs : List (String × Option ℚ)) (es : List PivotEntry)
    (hsel : selectCols t = .ok rs) (hext : extractAll rs = .ok es)
    (hdup : ¬ (es.map entryKey).Nodup) :
    reshape_result t = .raise .duplicateIndexError := by
  simp [reshape_result, hsel, PyResult.bind, hext, pivotPlate, hdup]

/-- C4 witness: the wells "A1" and "A01" both pivot to plate position
(A, 1), and reshaping raises the duplicate-index error. -/
theorem c4_duplicate_position_raises_witness :
    reshape_result
      { rows := [⟨"A1", [(cqColName, some 1)]⟩, ⟨"A01", [(cqColName, some 2)]⟩] } =
      .raise .duplicateIndexError :=
  c4_duplicate_position_raises
    { rows := [⟨"A1", [(cqColName, some 1)]⟩, ⟨"A01", [(cqColName, some 2)]⟩] }
    [("A1", some 1), ("A01", some 2)]
    [("A", 1, some 1), ("A", 1, some 2)]
    rfl rfl (by decide)

/-- C5 counterexample: the well-formed multi-letter id "AA12" is not placed
in row AA — the regex captures a single uppercase letter, so the pivot puts
it in row A, column 12, and the grid has no row "AA". -/
theorem c5_counterexample :
    specConformsWellId "AA12" = true ∧
    reshape_result { rows := [⟨"AA12", [(cqColName, some 5)]⟩] } =
      .ok { rowKeys := ["A"], colKeys := [12], cells := [[some 5]] } ∧
    "AA" ∉ (["A"] : List String) :=
  ⟨rfl, rfl, by decide⟩

/-- C5 (amended): for a well id made of one or more uppercase letters
followed by one or more digits, the pivot uses as row key only the single
letter adjacent to the digits (the last letter of the prefix — so AA12 is
placed in row A, not row AA) and the trailing digits parsed as an integer as
the column key. -/
theorem c5_row_key_single_letter (L D : List Char) (q : Option ℚ)
    (hL : L ≠ []) (hLU : ∀ c ∈ L, c.isUpper = true)
    (hD : D ≠ []) (hDD : ∀ c ∈ D, c.isDigit = true) :
    reshape_result { rows := [⟨String.mk (L ++ D), [(cqColName, q)]⟩] } =
      .ok
        { rowKeys := [(L.getLast hL).toString]
          colKeys := [digitsToNat D]
          cells := [[q]] } := by
  have hfind : findWellMatch (L ++ D) = some (L.getLast hL, D) :=
    findWellMatch_letters_digits L D hL hLU hD hDD
  simp [reshape_result, selectCols, mapPR, List.lookup, PyResult.bind, extractAll,
    extractRow, hfind, pivotPlate, entryKey, buildPlate, pivotRowKeys, pivotColKeys,
    sortByLe, insertSorted, dedupAdj, pivotCell, List.find?]

/-- C5 witness: the amended statement at the concrete id AA12 with Cq 5. -/
theorem c5_row_key_single_letter_witness :
    reshape_result { rows := [⟨String.mk (['A', 'A'] ++ ['1', '2']), [(cqColName, some 5)]⟩] } =
      .ok { rowKeys := ["A"], colKeys := [12], cells := [[some 5]] } :=
  c5_row_key_single_letter ['A', 'A'] ['1', '2'] (some 5)
    (by decide) (by decide) (by decide) (by decide)

/-- C6: the pipeline is deterministic and the handler memoizes by content
hash — whenever a pass of the uploaded-file handler computes tables
(a, m, p) and caches them under the upload's content hash, running the
handler again on byte-identical content returns exactly the same three
tables from the session cache, without recomputing. -/
theorem c6_identical_upload_reuses_cache (h : List Nat → String)
    (parse : List Nat → RdmlFile) (s s' : SessionState) (b : List Nat)
    (a : AmpTable) (m : MeltTable) (p : Plate)
    (hfirst : uploaded_file_handler h parse s b = (s', .computed a m p)) :
    uploaded_file_handler h parse s' b =
      (s', .cached (some a) (some m) (some p)) := by
  unfold uploaded_file_handler at hfirst
  by_cases hk : s.file_key = some (h b)
  · simp [hk] at hfirst
  · simp only [hk, if_false] at hfirst
    cases hp : processUpload parse b with
    | ok x =>
      obtain ⟨a', m', p'⟩ := x
      rw [hp] at hfirst
      simp only [Prod.mk.injEq, HandlerOutcome.computed.injEq] at hfirst
      obtain ⟨hs, ha, hm, hpq⟩ := hfirst
      subst ha hm hpq
      rw [← hs]
      simp [uploaded_file_handler]
    | raise e => rw [hp] at hfirst; simp at hfirst
    | exit c => rw [hp] at hfirst; simp at hfirst

/-- C6 witness: the cache-hit behaviour at a concrete successful upload of
`demoFile` (hashed to "k0") starting from an empty session. -/
theorem c6_identical_upload_reuses_cache_witness :
    uploaded_file_handler (fun _ => "k0") (fun _ => demoFile) demoState [0] =
      (demoState, .cached (some demoAmpTable) (some demoMeltTable) (some demoPlate)) :=
  c6_identical_upload_reuses_cache (fun _ => "k0") (fun _ => demoFile)
    ⟨none, none, none, none⟩ demoState [0] demoAmpTable demoMeltTable demoPlate
    (by decide)

/-- C7: `export_cq` invokes LinRegPCR with the documented default
configuration — efficiency-outlier trim fraction 0.05, no-plateau wells
excluded, unstable-baseline wells excluded, mean aggregation of the
surviving wells' efficiencies, and exclusion enforced (`ignoreExclusion`
false) — and with nothing else between that call and the reshape. -/
theorem c7_linregpcr_documented_defaults :
    exportCqConfig.pcrEfficiencyExl = (5 : ℚ) / 100 ∧
    exportCqConfig.excludeNoPlateau = true ∧
    exportCqConfig.excludeInstableBaseline = true ∧
    exportCqConfig.excludeEfficiency = "mean" ∧
    exportCqConfig.ignoreExclusion = false ∧
    ∀ run : Run, export_cq run = reshape_result (run.linRegPCR exportCqConfig).resultsCSV :=
  ⟨by norm_num [exportCqConfig], rfl, rfl, rfl, rfl, fun _ => rfl⟩

/-- C8: for every document with at least one experiment whose first
experiment has at least one run, `extract_run` returns the first run of the
first experiment, regardless of how many experiments or runs there are (and
across the version-1.0 migration, which preserves them). -/
theorem c8_extract_run_takes_first_of_first (f : RdmlFile) (e : Experiment)
    (es : List Experiment) (r : Run) (rs : List Run)
    (hexp : f.experiments = e :: es) (hruns : e.runs = r :: rs) :
    extract_run f = .ok r := by
  by_cases hv : f.version = "1.0" <;>
    simp [extract_run, migrate_version_1_0_to_1_1, hv, hexp, hruns]

/-- C8 witness: a version-1.0 document with two experiments, the first
holding two runs, from which `extract_run` returns the first run of the
first experiment. -/
theorem c8_extract_run_takes_first_of_first_witness :
    extract_run
      { version := "1.0"
        experiments := [⟨"e1", [demoRun, demoRun]⟩, ⟨"e2", []⟩] } = .ok demoRun :=
  c8_extract_run_takes_first_of_first
    { version := "1.0", experiments := [⟨"e1", [demoRun, demoRun]⟩, ⟨"e2", []⟩] }
    ⟨"e1", [demoRun, demoRun]⟩ [⟨"e2", []⟩] demoRun [demoRun] rfl rfl

/-- `getD` through `drop`: element `i` of the dropped list is element
`n + i` of the original. -/
theorem getD_drop {α : Type} (l : List α) (n i : Nat) (d : α) :
    (l.drop n).getD i d = l.getD (n + i) d := by
  simp [List.getD_eq_getElem?_getD, List.getElem?_drop]

/-- `getD` through `map` at an in-range index ignores both defaults. -/
theorem getD_map_of_lt {α β : Type} (f : α → β) (l : List α) (j : Nat)
    (hj : j < l.length) (d : β) (d' : α) :
    (l.map f).getD j d = f (l.getD j d') := by
  rw [List.getD_eq_getElem _ _ (by simpa using hj), List.getElem_map,
    List.getD_eq_getElem _ _ hj]

/-- `getD` through a mapped `range` at an in-range index. -/
theorem getD_range_map {β : Type} (f : Nat → β) (n i : Nat) (hi : i < n) (d : β) :
    ((List.range n).map f).getD i d = f i := by
  rw [List.getD_eq_getElem _ _ (by simpa using hi), List.getElem_map,
    List.getElem_range]

/-- Cell-level characterisation of drop-six-then-transpose: entry `(i, j)`
of the transposed table is the value of well row `j` at original column
position `6 + i`. -/
theorem transposeDropped_cell (t : RawExport) (i j : Nat)
    (hi : i < (t.cols.drop 6).length) (hj : j < t.rows.length) :
    ((transposeDropped t).getD i []).getD j none =
      (t.rows.getD j ("", [])).2.getD (6 + i) none := by
  unfold transposeDropped
  rw [getD_range_map _ _ _ hi, getD_map_of_lt _ _ _ hj _ ("", [])]
  exact getD_drop _ 6 i none

/-- C9: `export_amp` and `export_melt` return the exported table with its
first six metadata columns discarded and the remainder transposed — the row
index is the surviving column names cast to `int` (amplification) or `float`
(melt), the columns are the well ids, and cell `(i, j)` of the transposed
data is the raw value of well `j` at original column `6 + i`. -/
theorem c9_export_drops_six_and_transposes (run : Run) (idxA : List ℤ) (idxM : List ℚ)
    (hA : mapOpt parseIntStr (run.ampExport.cols.drop 6) = some idxA)
    (hM : mapOpt parseDecStr (run.meltExport.cols.drop 6) = some idxM) :
    export_amp run =
      .ok ⟨idxA, run.ampExport.rows.map (·.1), transposeDropped run.ampExport⟩ ∧
    export_melt run =
      .ok ⟨idxM, run.meltExport.rows.map (·.1), transposeDropped run.meltExport⟩ ∧
    (∀ i j, i < (run.ampExport.cols.drop 6).length → j < run.ampExport.rows.length →
      ((transposeDropped run.ampExport).getD i []).getD j none =
        (run.ampExport.rows.getD j ("", [])).2.getD (6 + i) none) ∧
    (∀ i j, i < (run.meltExport.cols.drop 6).length → j < run.meltExport.rows.length →
      ((transposeDropped run.meltExport).getD i []).getD j none =
        (run.meltExport.rows.getD j ("", [])).2.getD (6 + i) none) :=
  ⟨by simp [export_amp, hA], by simp [export_melt, hM],
   fun i j hi hj => transposeDropped_cell _ i j hi hj,
   fun i j hi hj => transposeDropped_cell _ i j hi hj⟩

/-- C9 witness: the export shapes and one transposed cell at `demoRun`
(cycles 1-2, temperature 60, well A1). -/
theorem c9_export_drops_six_and_transposes_witness :
    export_amp demoRun = .ok ⟨[1, 2], ["A1"], transposeDropped demoRun.ampExport⟩ ∧
    export_melt demoRun = .ok ⟨[60], ["A1"], transposeDropped demoRun.meltExport⟩ ∧
    ((transposeDropped demoRun.ampExport).getD 0 []).getD 0 none =
      (demoRun.ampExport.rows.getD 0 ("", [])).2.getD 6 none :=
  ⟨(c9_export_drops_six_and_transposes demoRun [1, 2] [60] rfl rfl).1,
   (c9_export_drops_six_and_transposes demoRun [1, 2] [60] rfl rfl).2.1,
   (c9_export_drops_six_and_transposes demoRun [1, 2] [60] rfl rfl).2.2.1 0 0
     (by decide) (by decide)⟩

/-- C10: the per-well Cq value in the final plate grid is taken exclusively
from the "Cq (mean eff) - no plateau - stat efficiency" column — the output
of `reshape_result` depends only on each row's well id and that column (all
other result columns are discarded before pivoting), and a pivoted well's
grid cell is exactly that column's value. -/
theorem c10_cq_exclusively_from_cq_column :
    (∀ t₁ t₂ : ResultTable,
      t₁.rows.map (fun r => (r.well, r.cells.lookup cqColName)) =
        t₂.rows.map (fun r => (r.well, r.cells.lookup cqColName)) →
      reshape_result t₁ = reshape_result t₂) ∧
    (∀ (w : String) (cs : List (String × Option ℚ)) (v : Option ℚ)
        (c : Char) (ds : List Char),
      cs.lookup cqColName = some v →
      findWellMatch w.toList = some (c, ds) →
      reshape_result { rows := [⟨w, cs⟩] } =
        .ok { rowKeys := [c.toString], colKeys := [digitsToNat ds], cells := [[v]] }) := by
  constructor
  · intro t₁ t₂ hproj
    have hsel : ∀ t : ResultTable,
        selectCols t =
          mapPR
            (fun x : String × Option (Option ℚ) =>
              match x.2 with
              | some v => .ok (x.1, v)
              | none => .raise .keyError)
            (t.rows.map fun r => (r.well, r.cells.lookup cqColName)) := by
      intro t
      rw [mapPR_map]
      rfl
    unfold reshape_result
    rw [hsel t₁, hsel t₂, hproj]
  · intro w cs v c ds hlook hfind0
    have hfind : findWellMatch w.data = some (c, ds) := hfind0
    simp [reshape_result, selectCols, mapPR, hlook, PyResult.bind, extractAll,
      extractRow, hfind, pivotPlate, entryKey, buildPlate, pivotRowKeys,
      pivotColKeys, sortByLe, insertSorted, dedupAdj, pivotCell, List.find?]

/-- C10 witness: deleting an unrelated result column does not change the
grid, and a well's grid cell is its Cq-column value. -/
theorem c10_cq_exclusively_from_cq_column_witness :
    reshape_result
        { rows := [⟨"A1", [(cqColName, some 2), ("indiv PCR eff", some 9)]⟩] } =
      reshape_result { rows := [⟨"A1", [(cqColName, some 2)]⟩] } ∧
    reshape_result
        { rows := [⟨"C3", [("indiv PCR eff", some 9), (cqColName, some 4)]⟩] } =
      .ok { rowKeys := ["C"], colKeys := [3], cells := [[some 4]] } :=
  ⟨c10_cq_exclusively_from_cq_column.1 _ _ rfl,
   c10_cq_exclusively_from_cq_column.2 "C3"
     [("indiv PCR eff", some 9), (cqColName, some 4)] (some 4) 'C' ['3'] rfl rfl⟩
